import Mathlib

/-!
Verification of the external-interaction extraction / hydration pipeline
(`src/hydratorpipeline.py`) against its natural-language specification.

The pipeline is shallowly embedded:
* a CSV row becomes a `Row` of the five string fields the extractor reads;
* a Python `set` becomes a duplicate-free `List String` built by
  `setAdd` (insert only when absent), so "appears exactly once" is a real
  statement about `List.count`;
* file-system effects become explicit record fields (contents of the files
  each function writes), and a Python function's return value becomes an
  explicit `retval`/`result` field (`none` models Python's `None`);
* the `ZeroDivisionError` raised by `collected/num_lines` on an empty
  input becomes the `Except` error case of the report computation;
* float arithmetic of the report is idealised over `ℚ`, with Python's
  `round(x, ndigits=2)` modelled as round-half-to-even at two decimals.
-/

/-- One row of the input CSV, restricted to the five fields read by
`externaltweets`.  The empty string models an absent value. -/
structure Row where
  retweet_userid : String
  retweet_tweetid : String
  in_reply_to_userid : String
  in_reply_to_tweetid : String
  quoted_tweet_tweetid : String

/-- Python `set.add`: insert an element only if it is not already present.
The list is kept in insertion order; only membership and multiplicity
matter. -/
def setAdd (l : List String) (x : String) : List String :=
  if x ∈ l then l else l ++ [x]

/-- The three identifier sets accumulated by `externaltweets`
(`retweets`, `replies`, `quotes` in the source). -/
structure ExtractSets where
  retweets : List String
  replies : List String
  quotes : List String

/-- The per-row body of the CSV loop in `externaltweets`.  The three `if`
statements of the source update three distinct sets, so they are rendered
field-wise; each guard is the source's length test verbatim
(`len(row['retweet_userid']) == 0 & len(row['retweet_tweetid']) > 0`,
`len(row['in_reply_to_userid']) >= 0 & len(row['in_reply_to_tweetid']) > 0`,
`len(row['quoted_tweet_tweetid']) > 0`). -/
def processRow (s : ExtractSets) (row : Row) : ExtractSets where
  retweets :=
    if row.retweet_userid.length = 0 ∧ 0 < row.retweet_tweetid.length then
      setAdd s.retweets row.retweet_tweetid
    else s.retweets
  replies :=
    if 0 ≤ row.in_reply_to_userid.length ∧ 0 < row.in_reply_to_tweetid.length then
      setAdd s.replies row.in_reply_to_tweetid
    else s.replies
  quotes :=
    if 0 < row.quoted_tweet_tweetid.length then
      setAdd s.quotes row.quoted_tweet_tweetid
    else s.quotes

/-- The scanning phase of `externaltweets`: fold the loop body over the
rows of the CSV, starting from three empty sets. -/
def externaltweetsSets (rows : List Row) : ExtractSets :=
  rows.foldl processRow ⟨[], [], []⟩

/-- Observable outcome of one `externaltweets` call: the contents of the
three output files it writes (one identifier per line, one file per
interaction type) and its return value.  The source function ends with a
bare `return`, so `retval` is `none` (Python `None`). -/
structure ExtractOutcome where
  file_rt : List String
  file_rp : List String
  file_qt : List String
  retval : Option (List String × List String × List String)

/-- `externaltweets`: scan the rows, write each accumulated set to its
output file, and return `None`. -/
def externaltweets (rows : List Row) : ExtractOutcome :=
  let s := externaltweetsSets rows
  { file_rt := s.retweets
    file_rp := s.replies
    file_qt := s.quotes
    retval := none }

/- ### Basic string/list facts used to relate the source's length guards
to emptiness of the field. -/

lemma string_length_eq_zero_iff (s : String) : s.length = 0 ↔ s = "" := by
  constructor
  · intro h
    cases s with
    | mk d =>
      cases d with
      | nil => rfl
      | cons c cs => simp [String.length] at h
  · intro h; subst h; rfl

lemma string_length_pos_iff (s : String) : 0 < s.length ↔ s ≠ "" := by
  rw [Nat.pos_iff_ne_zero, not_iff_not, string_length_eq_zero_iff]

lemma setAdd_mem (l : List String) (x y : String) :
    y ∈ setAdd l x ↔ y ∈ l ∨ y = x := by
  unfold setAdd
  split_ifs with h
  · constructor
    · exact Or.inl
    · rintro (hy | rfl)
      · exact hy
      · exact h
  · simp

lemma setAdd_nodup (l : List String) (x : String) (h : l.Nodup) :
    (setAdd l x).Nodup := by
  unfold setAdd
  split_ifs with hx
  · exact h
  · rw [List.nodup_append]
    exact ⟨h, List.nodup_singleton x,
      fun a ha hax => hx ((List.mem_singleton.mp hax) ▸ ha)⟩

/- ### Membership through one loop iteration, per field. -/

lemma processRow_retweets_mem (s : ExtractSets) (r : Row) (id : String) :
    id ∈ (processRow s r).retweets ↔
      id ∈ s.retweets ∨
        (r.retweet_userid = "" ∧ r.retweet_tweetid = id ∧ id ≠ "") := by
  show id ∈ (if _ then _ else _) ↔ _
  split_ifs with h
  · rw [setAdd_mem]
    rw [string_length_eq_zero_iff, string_length_pos_iff] at h
    constructor
    · rintro (hy | rfl)
      · exact Or.inl hy
      · exact Or.inr ⟨h.1, rfl, h.2⟩
    · rintro (hy | ⟨_, rfl, _⟩)
      · exact Or.inl hy
      · exact Or.inr rfl
  · rw [string_length_eq_zero_iff, string_length_pos_iff, not_and_or] at h
    constructor
    · exact Or.inl
    · rintro (hy | ⟨hu, rfl, ht⟩)
      · exact hy
      · exact absurd (Or.imp_left (fun hn => hn hu) (h.imp_right fun hn => hn ht))
          (by simp)

lemma processRow_replies_mem (s : ExtractSets) (r : Row) (id : String) :
    id ∈ (processRow s r).replies ↔
      id ∈ s.replies ∨ (r.in_reply_to_tweetid = id ∧ id ≠ "") := by
  show id ∈ (if _ then _ else _) ↔ _
  split_ifs with h
  · rw [setAdd_mem]
    rw [string_length_pos_iff] at h
    constructor
    · rintro (hy | rfl)
      · exact Or.inl hy
      · exact Or.inr ⟨rfl, h.2⟩
    · rintro (hy | ⟨rfl, _⟩)
      · exact Or.inl hy
      · exact Or.inr rfl
  · rw [not_and_or, string_length_pos_iff] at h
    constructor
    · exact Or.inl
    · rintro (hy | ⟨rfl, ht⟩)
      · exact hy
      · rcases h with h | h
        · exact absurd (Nat.zero_le _) h
        · exact absurd ht fun hne => h hne

lemma processRow_quotes_mem (s : ExtractSets) (r : Row) (id : String) :
    id ∈ (processRow s r).quotes ↔
      id ∈ s.quotes ∨ (r.quoted_tweet_tweetid = id ∧ id ≠ "") := by
  show id ∈ (if _ then _ else _) ↔ _
  split_ifs with h
  · rw [setAdd_mem]
    rw [string_length_pos_iff] at h
    constructor
    · rintro (hy | rfl)
      · exact Or.inl hy
      · exact Or.inr ⟨rfl, h⟩
    · rintro (hy | ⟨rfl, _⟩)
      · exact Or.inl hy
      · exact Or.inr rfl
  · rw [string_length_pos_iff] at h
    push_neg at h
    constructor
    · exact Or.inl
    · rintro (hy | ⟨rfl, ht⟩)
      · exact hy
      · exact absurd h ht

/- ### Membership through the whole fold, per field. -/

lemma foldl_retweets_mem (rows : List Row) (s : ExtractSets) (id : String) :
    id ∈ (rows.foldl processRow s).retweets ↔
      id ∈ s.retweets ∨
        ∃ row ∈ rows, row.retweet_userid = "" ∧ row.retweet_tweetid = id ∧ id ≠ "" := by
  induction rows generalizing s with
  | nil => simp
  | cons r rs ih =>
    rw [List.foldl_cons, ih, processRow_retweets_mem]
    simp [or_assoc]

lemma foldl_replies_mem (rows : List Row) (s : ExtractSets) (id : String) :
    id ∈ (rows.foldl processRow s).replies ↔
      id ∈ s.replies ∨
        ∃ row ∈ rows, row.in_reply_to_tweetid = id ∧ id ≠ "" := by
  induction rows generalizing s with
  | nil => simp
  | cons r rs ih =>
    rw [List.foldl_cons, ih, processRow_replies_mem]
    simp [or_assoc]

lemma foldl_quotes_mem (rows : List Row) (s : ExtractSets) (id : String) :
    id ∈ (rows.foldl processRow s).quotes ↔
      id ∈ s.quotes ∨
        ∃ row ∈ rows, row.quoted_tweet_tweetid = id ∧ id ≠ "" := by
  induction rows generalizing s with
  | nil => simp
  | cons r rs ih =>
    rw [List.foldl_cons, ih, processRow_quotes_mem]
    simp [or_assoc]

/- ### The accumulated sets stay duplicate-free. -/

lemma foldl_nodup (rows : List Row) (s : ExtractSets)
    (h1 : s.retweets.Nodup) (h2 : s.replies.Nodup) (h3 : s.quotes.Nodup) :
    ((rows.foldl processRow s).retweets).Nodup ∧
      ((rows.foldl processRow s).replies).Nodup ∧
      ((rows.foldl processRow s).quotes).Nodup := by
  induction rows generalizing s with
  | nil => exact ⟨h1, h2, h3⟩
  | cons r rs ih =>
    rw [List.foldl_cons]
    refine ih (processRow s r) ?_ ?_ ?_
    · show List.Nodup (if _ then _ else _)
      split_ifs
      · exact setAdd_nodup _ _ h1
      · exact h1
    · show List.Nodup (if _ then _ else _)
      split_ifs
      · exact setAdd_nodup _ _ h2
      · exact h2
    · show List.Nodup (if _ then _ else _)
      split_ifs
      · exact setAdd_nodup _ _ h3
      · exact h3

lemma externaltweetsSets_retweets_mem (rows : List Row) (id : String) :
    id ∈ (externaltweetsSets rows).retweets ↔
      ∃ row ∈ rows, row.retweet_userid = "" ∧ row.retweet_tweetid = id ∧ id ≠ "" := by
  unfold externaltweetsSets
  rw [foldl_retweets_mem]
  simp

lemma externaltweetsSets_replies_mem (rows : List Row) (id : String) :
    id ∈ (externaltweetsSets rows).replies ↔
      ∃ row ∈ rows, row.in_reply_to_tweetid = id ∧ id ≠ "" := by
  unfold externaltweetsSets
  rw [foldl_replies_mem]
  simp

lemma externaltweetsSets_quotes_mem (rows : List Row) (id : String) :
    id ∈ (externaltweetsSets rows).quotes ↔
      ∃ row ∈ rows, row.quoted_tweet_tweetid = id ∧ id ≠ "" := by
  unfold externaltweetsSets
  rw [foldl_quotes_mem]
  simp

lemma externaltweetsSets_nodup (rows : List Row) :
    ((externaltweetsSets rows).retweets).Nodup ∧
      ((externaltweetsSets rows).replies).Nodup ∧
      ((externaltweetsSets rows).quotes).Nodup :=
  foldl_nodup rows ⟨[], [], []⟩ List.nodup_nil List.nodup_nil List.nodup_nil

/-- C1: a row contributes its `retweet_tweetid` to the retweet set exactly
when `retweet_userid` is empty and `retweet_tweetid` is non-empty, the set
holds each such identifier exactly once regardless of duplicate rows, and
no other row contributes anything. -/
theorem C1_retweet_set (rows : List Row) (id : String) :
    (id ∈ (externaltweetsSets rows).retweets ↔
      ∃ row ∈ rows, row.retweet_userid = "" ∧ row.retweet_tweetid = id ∧ id ≠ "") ∧
    ((∃ row ∈ rows, row.retweet_userid = "" ∧ row.retweet_tweetid = id ∧ id ≠ "") →
      List.count id (externaltweetsSets rows).retweets = 1) := by
  refine ⟨externaltweetsSets_retweets_mem rows id, fun h => ?_⟩
  exact List.count_eq_one_of_mem (externaltweetsSets_nodup rows).1
    ((externaltweetsSets_retweets_mem rows id).2 h)

/-- Witness for C1: two duplicate qualifying rows put `"111"` in the
retweet set exactly once. -/
theorem C1_retweet_set_witness :
    (∃ row ∈ [Row.mk "" "111" "" "" "", Row.mk "" "111" "" "" ""],
      row.retweet_userid = "" ∧ row.retweet_tweetid = "111" ∧ ("111" : String) ≠ "") ∧
    List.count "111"
      (externaltweetsSets [Row.mk "" "111" "" "" "", Row.mk "" "111" "" "" ""]).retweets = 1 :=
  ⟨by decide,
    (C1_retweet_set [Row.mk "" "111" "" "" "", Row.mk "" "111" "" "" ""] "111").2 (by decide)⟩

/-- C2: membership in the reply set depends only on `in_reply_to_tweetid`
being non-empty; the `in_reply_to_userid` guard (`len >= 0`) is vacuous,
so the characterisation does not mention the userid at all. -/
theorem C2_reply_set (rows : List Row) (id : String) :
    id ∈ (externaltweetsSets rows).replies ↔
      ∃ row ∈ rows, row.in_reply_to_tweetid = id ∧ id ≠ "" :=
  externaltweetsSets_replies_mem rows id

/- ### Hydrator (`harvest_external_data`) and the directory walkers. -/

/-- The one error the report computation can raise: Python
ZeroDivisionError from `collected/num_lines` when the input file has zero
lines. -/
inductive HydErr where
  | divisionError
deriving DecidableEq

/-- The values printed on the single line of the report file:
`"Total: {num_lines}, collected {collected}, recovered %: {pct}"`. -/
structure HydrationReport where
  total_requested : ℕ
  collected : ℕ
  recovery_percent : ℚ
deriving DecidableEq

/-- Round-half-to-even to the nearest integer, as Python `round` does. -/
def roundHalfEven (x : ℚ) : ℤ :=
  if x - ⌊x⌋ < 1/2 then ⌊x⌋
  else if 1/2 < x - ⌊x⌋ then ⌊x⌋ + 1
  else if ⌊x⌋ % 2 = 0 then ⌊x⌋ else ⌊x⌋ + 1

/-- Python `round(x, ndigits=2)`, idealised over `ℚ`. -/
def pyRound2 (x : ℚ) : ℚ := (roundHalfEven (x * 100) : ℚ) / 100

/-- Contents of the two files one Hydrator run may write: `none` means the
file was never created, `some l` that it was opened for writing (truncated)
and now holds the lines `l`.  The report file holds structured report
lines rather than raw text. -/
structure FsState where
  jsonlFile : Option (List String)
  logFile : Option (List HydrationReport)
deriving DecidableEq

/-- Observable outcome of one `harvest_external_data` call: the file-system
state it leaves behind and its result — `Except.error` when the division
raises, otherwise `Except.ok` of the Python return value, which is `None`
because the source function has no return statement. -/
structure HarvestOutcome where
  fs : FsState
  result : Except HydErr (Option HydrationReport)

/-- `harvest_external_data`, sequenced as the source is: count the input
lines, create (truncate) the `.jsonl` output file and write every streamed
record to it, then open (truncate) the `.log` report file, and only then
evaluate `round(collected/num_lines*100, ndigits=2)` — which raises the
division error when `num_lines` is zero, after both files already exist.
`lines` is the content of the input file; `stream` is the lazy record
sequence returned by the external hydration collaborator, one serialized
record per element. -/
def harvest_external_data (lines stream : List String) : HarvestOutcome :=
  let num_lines := lines.length
  let collected := stream.length
  let fsAfterHydrate : FsState := { jsonlFile := some stream, logFile := none }
  let fsLogOpen : FsState := { fsAfterHydrate with logFile := some [] }
  if num_lines = 0 then
    { fs := fsLogOpen, result := Except.error HydErr.divisionError }
  else
    { fs := { fsLogOpen with
        logFile := some [⟨num_lines, collected,
          pyRound2 ((collected : ℚ) / (num_lines : ℚ) * 100)⟩] }
      result := Except.ok none }

/-- Per-file body of the loops in `getfiles` and `harvestfiles` (the two
are line-for-line identical): attempt the file, and on an exception append
its path to `problems`.  A file is the pair of its path and whether
processing it succeeds. -/
def walkStep (acc : List String × List String) (file : String × Bool) :
    List String × List String :=
  (acc.1 ++ [file.1], if file.2 then acc.2 else acc.2 ++ [file.1])

/-- Observable outcome of one directory-walk call: the files attempted in
order, the failure list printed at the end, and the return value — `none`,
because both walkers end with a bare `return`. -/
structure WalkOutcome where
  processed : List String
  problemsPrinted : List String
  retval : Option (List String)
deriving DecidableEq

/-- `getfiles`: run the extractor over every matching file, collecting
failures, print the failure list, return `None`. -/
def getfiles (files : List (String × Bool)) : WalkOutcome :=
  let r := files.foldl walkStep ([], [])
  { processed := r.1, problemsPrinted := r.2, retval := none }

/-- `harvestfiles`: run `harvest_external_data` over every matching file,
collecting failures, print the failure list, return `None`. -/
def harvestfiles (files : List (String × Bool)) : WalkOutcome :=
  let r := files.foldl walkStep ([], [])
  { processed := r.1, problemsPrinted := r.2, retval := none }

lemma walkStep_foldl (files : List (String × Bool)) (a b : List String) :
    files.foldl walkStep (a, b) =
      (a ++ files.map Prod.fst, b ++ (files.filter fun f => !f.2).map Prod.fst) := by
  induction files generalizing a b with
  | nil => simp
  | cons f fs ih =>
    rw [List.foldl_cons]
    cases hf : f.2 with
    | true => simp [walkStep, hf, ih, List.filter_cons]
    | false => simp [walkStep, hf, ih, List.filter_cons]

/-- C3: with a zero-line input file the report computation raises the
division error, and no report line is ever produced (the log file is left
truncated and empty, not holding a `recovery_percent = 0` report). -/
theorem C3_empty_input_divides_by_zero (stream : List String) :
    (harvest_external_data [] stream).result = Except.error HydErr.divisionError ∧
    (harvest_external_data [] stream).fs.logFile = some [] :=
  ⟨rfl, rfl⟩

/-- C4: the walker attempts every file in order regardless of earlier
failures, and the printed failure list is exactly the paths of the failing
files — succeeding files never appear in it. -/
theorem C4_walker_resilience (files : List (String × Bool)) :
    (getfiles files).processed = files.map Prod.fst ∧
    (getfiles files).problemsPrinted =
      (files.filter fun f => !f.2).map Prod.fst := by
  constructor <;> simp [getfiles, walkStep_foldl]

/-- C5: with 10 requested identifiers and 7 recovered records the report
line shows total 10, collected 7 and recovery percentage 70. -/
theorem C5_report_arithmetic (lines stream : List String)
    (h1 : lines.length = 10) (h2 : stream.length = 7) :
    (harvest_external_data lines stream).fs.logFile =
      some [⟨10, 7, 70⟩] := by
  simp only [harvest_external_data, h1, h2]
  norm_num [pyRound2, roundHalfEven]

/-- Witness for C5 at a concrete 10-line input and 7-record stream. -/
theorem C5_report_arithmetic_witness :
    (harvest_external_data (List.replicate 10 "x") (List.replicate 7 "y")).fs.logFile =
      some [⟨10, 7, 70⟩] :=
  C5_report_arithmetic (List.replicate 10 "x") (List.replicate 7 "y")
    (by decide) (by decide)

/-- Counterexample to C6: on a concrete input the extractor's return value
is not the triple of extracted sets — the source ends with a bare
`return`, so the call returns `None`. -/
theorem C6_returns_none_counterexample :
    (externaltweets [Row.mk "" "111" "" "" ""]).retval ≠
      some ((externaltweets [Row.mk "" "111" "" "" ""]).file_rt,
            (externaltweets [Row.mk "" "111" "" "" ""]).file_rp,
            (externaltweets [Row.mk "" "111" "" "" ""]).file_qt) := by
  simp [externaltweets]

/-- C6 as amended: the extractor writes the three extracted identifier
sets to the three output files, but returns `None` to its caller rather
than the triple. -/
theorem C6_writes_files_returns_none (rows : List Row) :
    (externaltweets rows).retval = none ∧
    (∀ id, id ∈ (externaltweets rows).file_rt ↔
      ∃ row ∈ rows, row.retweet_userid = "" ∧ row.retweet_tweetid = id ∧ id ≠ "") ∧
    (∀ id, id ∈ (externaltweets rows).file_qt ↔
      ∃ row ∈ rows, row.quoted_tweet_tweetid = id ∧ id ≠ "") :=
  ⟨rfl, fun id => externaltweetsSets_retweets_mem rows id,
    fun id => externaltweetsSets_quotes_mem rows id⟩

/-- Counterexample to C7: with one failing file, the walkers print a
failure list holding exactly that path, yet both return `None` rather than
the list — each source function ends with a bare `return`. -/
theorem C7_returns_none_counterexample :
    (getfiles [("a", false)]).problemsPrinted = ["a"] ∧
    (getfiles [("a", false)]).retval = none ∧
    (harvestfiles [("a", false)]).problemsPrinted = ["a"] ∧
    (harvestfiles [("a", false)]).retval = none :=
  ⟨rfl, rfl, rfl, rfl⟩

/-- C7 as amended: each directory-walk wrapper prints the failure list it
accumulated but returns `None` to its caller, not the list. -/
theorem C7_walkers_print_but_return_none (gf hf : List (String × Bool)) :
    (getfiles gf).retval = none ∧
    (harvestfiles hf).retval = none ∧
    (harvestfiles hf).processed = hf.map Prod.fst ∧
    (harvestfiles hf).problemsPrinted =
      (hf.filter fun f => !f.2).map Prod.fst := by
  refine ⟨rfl, rfl, ?_, ?_⟩ <;> simp [harvestfiles, walkStep_foldl]

/-- Counterexample to C8: a successful one-line, one-record run returns
`None` (the source has no return statement), not a `HydrationReport`. -/
theorem C8_returns_none_counterexample :
    (harvest_external_data ["1"] ["r"]).result = Except.ok none := by
  simp [harvest_external_data]

/-- C8 as amended: on a non-empty input the hydrator writes the report
(total, collected, rounded percentage) to the report file, but returns
`None` to its caller rather than the report. -/
theorem C8_writes_report_returns_none (lines stream : List String)
    (h : lines ≠ []) :
    (harvest_external_data lines stream).result = Except.ok none ∧
    (harvest_external_data lines stream).fs.logFile =
      some [⟨lines.length, stream.length,
        pyRound2 ((stream.length : ℚ) / (lines.length : ℚ) * 100)⟩] := by
  rw [← List.length_pos] at h
  constructor <;> simp [harvest_external_data, Nat.pos_iff_ne_zero.mp h]

/-- Witness for C8 as amended, at a one-line input with one record. -/
theorem C8_writes_report_returns_none_witness :
    (harvest_external_data ["1"] ["r"]).result = Except.ok none ∧
    (harvest_external_data ["1"] ["r"]).fs.logFile =
      some [⟨1, 1, pyRound2 ((1 : ℚ) / (1 : ℚ) * 100)⟩] :=
  C8_writes_report_returns_none ["1"] ["r"] (by decide)

/-- C9: every identifier placed in any of the three extracted sets is a
non-empty string, because every inclusion guard requires the corresponding
tweetid field to have positive length. -/
theorem C9_ids_nonempty (rows : List Row) (id : String)
    (h : id ∈ (externaltweetsSets rows).retweets ∨
         id ∈ (externaltweetsSets rows).replies ∨
         id ∈ (externaltweetsSets rows).quotes) :
    id ≠ "" := by
  rcases h with h | h | h
  · obtain ⟨row, _, _, _, hne⟩ := (externaltweetsSets_retweets_mem rows id).1 h
    exact hne
  · obtain ⟨row, _, _, hne⟩ := (externaltweetsSets_replies_mem rows id).1 h
    exact hne
  · obtain ⟨row, _, _, hne⟩ := (externaltweetsSets_quotes_mem rows id).1 h
    exact hne

/-- Witness for C9 at a concrete row contributing `"111"`. -/
theorem C9_ids_nonempty_witness :
    ("111" ∈ (externaltweetsSets [Row.mk "" "111" "" "" ""]).retweets ∨
     "111" ∈ (externaltweetsSets [Row.mk "" "111" "" "" ""]).replies ∨
     "111" ∈ (externaltweetsSets [Row.mk "" "111" "" "" ""]).quotes) ∧
    ("111" : String) ≠ "" :=
  ⟨Or.inl (by decide),
    C9_ids_nonempty [Row.mk "" "111" "" "" ""] "111" (Or.inl (by decide))⟩

/-- Counterexample to C10: on an empty input the failed run does not leave
"no report file" — the report file is opened (truncated) before the
division is evaluated, so an empty report file is left on disk. -/
theorem C10_report_file_created_counterexample :
    (harvest_external_data [] []).fs.logFile ≠ none := by
  simp [harvest_external_data]

/-- C10 as amended: on an empty input the run truncates the output records
file, truncates the report file, and then raises the division error — so
it leaves an empty output file and an empty report file on disk. -/
theorem C10_empty_input_files_left :
    (harvest_external_data [] []).fs.jsonlFile = some [] ∧
    (harvest_external_data [] []).fs.logFile = some [] ∧
    (harvest_external_data [] []).result = Except.error HydErr.divisionError :=
  ⟨rfl, rfl, rfl⟩
